import Mathlib

/-!
Verification of the build-dispatch CLI in src/src/index.ts.

The program reads the source file named by the second-to-last command-line
argument, takes the last argument as the target identifier, runs the shell
command string built by interpolating the target into
"cargo run -r --target ${target}" through child_process.exec, and in the
exec callback prints the captured stderr (console.error) when non-empty,
the error object (console.error) when non-null, then the captured stdout
(console.log) and the literal line "Done!" (console.log).

The embedding below is a pure model of one run: the filesystem and the
behavior of the host when executing a command are parameters, and the run
result records the exit outcome, the list of dispatched command strings,
the ordered console output events tagged with their stream, and the
filesystem operations performed.
-/

namespace UHWC

/-- The filesystem visible to the program: a path maps to the text contents
of a readable file, or to none when the path does not exist, is not
readable, or is a directory. -/
def FileSystem : Type := String → Option String

/-- A filesystem operation performed during a run. -/
inductive FsOp
  | read (path : String)
  | write (path : String)
deriving DecidableEq

/-- The error value delivered to the exec callback; it is null (none) when
the command was launched and exited successfully. -/
structure ExecError where
  message : String
deriving DecidableEq

/-- What the exec callback receives after the child process terminates (or
fails to launch): the error value and the fully captured stdout and stderr
texts. -/
structure ExecOutcome where
  error : Option ExecError
  stdout : String
  stderr : String
deriving DecidableEq

/-- The behavior of the host when a shell command string is dispatched. -/
def World : Type := String → ExecOutcome

/-- The two output streams of the program process: console.log writes to
out (standard output), console.error writes to err (standard error). -/
inductive Channel
  | out
  | err
deriving DecidableEq

/-- console.error(error) prints a textual representation of the error
object; the representation function is the identity on the message. -/
def errorRepr (e : ExecError) : String := e.message

/-- Embedding of fs.readFileSync(path, "utf8") (line 4): returns the full
decoded text contents, or throws a file error when the path is not a
readable file. -/
def readFileSync (fs : FileSystem) (path : String) : Except String String :=
  match fs path with
  | some contents => Except.ok contents
  | none => Except.error ("ENOENT: no such file or directory, open " ++ path)

instance : DecidableEq (Except String String) := fun a b =>
  match a, b with
  | Except.ok x, Except.ok y =>
      if h : x = y then Decidable.isTrue (by rw [h])
      else Decidable.isFalse (by intro hc; cases hc; exact h rfl)
  | Except.error x, Except.error y =>
      if h : x = y then Decidable.isTrue (by rw [h])
      else Decidable.isFalse (by intro hc; cases hc; exact h rfl)
  | Except.ok _, Except.error _ => Decidable.isFalse (by intro hc; cases hc)
  | Except.error _, Except.ok _ => Decidable.isFalse (by intro hc; cases hc)

/-- Result of the Input Validator step: the outcome of the single
readFileSync call, together with the filesystem operations it performed. -/
structure ValidateResult where
  result : Except String String
  fsOps : List FsOp
deriving DecidableEq

/-- The validate operation of the spec, embedded from line 4: one
readFileSync call, hence exactly one read operation and no writes. -/
def validate (fs : FileSystem) (path : String) : ValidateResult :=
  { result := readFileSync fs path, fsOps := [FsOp.read path] }

/-- process.argv[process.argv.length - 2] (line 4): the second-to-last
element of the full argument vector. -/
def argvSourcePath (argv : List String) : String :=
  argv.getD (argv.length - 2) ""

/-- process.argv[process.argv.length - 1] (line 6): the last element of the
full argument vector. -/
def argvTarget (argv : List String) : String :=
  argv.getD (argv.length - 1) ""

/-- The template literal of line 8: the shell command string with the
target interpolated verbatim. -/
def mkCommand (target : String) : String :=
  "cargo run -r --target " ++ target

/-- Embedding of the exec callback body (lines 8-17): the ordered console
events it emits. console.error(stderr) when stderr is non-empty (string
truthiness), console.error(error) when error is not null, then
console.log(stdout) and console.log("Done!") unconditionally. -/
def execCallback (o : ExecOutcome) : List (Channel × String) :=
  (if o.stderr ≠ "" then [(Channel.err, o.stderr)] else [])
    ++ (match o.error with
        | some e => [(Channel.err, errorRepr e)]
        | none => [])
    ++ [(Channel.out, o.stdout), (Channel.out, "Done!")]

/-- Observable outcome of one run of the program. -/
structure RunResult where
  /-- true when the process exits with a successful status; false when it
  terminates on the uncaught readFileSync exception. -/
  exitSuccess : Bool
  /-- the shell command strings handed to exec, in order. -/
  spawned : List String
  /-- the console output events, in order, tagged with their stream. -/
  events : List (Channel × String)
  /-- the filesystem operations performed. -/
  fsOps : List FsOp
deriving DecidableEq

/-- One run with the source path and target already extracted: validate the
source file (an uncaught failure ends the run before exec), then dispatch
the interpolated command and report through the callback. -/
def runWith (sourcePath target : String) (fs : FileSystem) (w : World) :
    RunResult :=
  let v := validate fs sourcePath
  match v.result with
  | Except.error _ =>
      { exitSuccess := false, spawned := [], events := [], fsOps := v.fsOps }
  | Except.ok _ =>
      let cmd := mkCommand target
      { exitSuccess := true, spawned := [cmd], events := execCallback (w cmd),
        fsOps := v.fsOps }

/-- The whole program (src/src/index.ts): extract the two positional values
from the end of the argument vector and run. -/
def program (argv : List String) (fs : FileSystem) (w : World) : RunResult :=
  runWith (argvSourcePath argv) (argvTarget argv) fs w

/-- Two consecutive invocations of the program with the same arguments and
filesystem; each invocation has its own external-world behavior. -/
def runTwice (argv : List String) (fs : FileSystem) (w1 w2 : World) :
    RunResult × RunResult :=
  (program argv fs w1, program argv fs w2)

/-- Splits a character list at every occurrence of the separator. -/
def splitOnChar (sep : Char) : List Char → List (List Char)
  | [] => [[]]
  | c :: cs =>
      let rest := splitOnChar sep cs
      if c = sep then [] :: rest
      else
        match rest with
        | [] => [[c]]
        | r :: rs => (c :: r) :: rs

/-- Drops space characters from both ends. -/
def trimChars (cs : List Char) : List Char :=
  ((cs.dropWhile (fun c => c = ' ')).reverse.dropWhile (fun c => c = ' ')).reverse

/-- Model of the shell interpretation that child_process.exec applies to
its command argument: exec hands the string to a shell (sh -c), and for a
command string containing no quoting or escaping the shell splits it at
every unquoted semicolon into separate commands, run in sequence. -/
def shellCommands (cmd : String) : List String :=
  (splitOnChar (Char.ofNat 59) cmd.data).map (fun cs => String.mk (trimChars cs))

/-- Model of shell word splitting for one quoting-free command: unquoted
whitespace separates the words of the argument vector. -/
def shellWords (c : String) : List String :=
  ((splitOnChar ' ' c.data).filter (fun cs => cs ≠ [])).map String.mk

/-- Example filesystem: one readable source file. -/
def fsHello : FileSystem :=
  fun p => if p = "hello.js" then some "console.log(\"Hello, world!\");" else none

/-- Example filesystem: nothing is readable. -/
def fsEmpty : FileSystem := fun _ => none

/-- Example world: the toolchain runs quietly and succeeds. -/
def worldQuiet : World :=
  fun _ => { error := none, stdout := "Hello, world!\n", stderr := "" }

/-- Example world: the toolchain executable is absent, so the launch fails;
exec reports a non-null error and the shell writes to stderr. -/
def worldNoToolchain : World :=
  fun _ =>
    { error := some { message := "spawn failure: cargo not found" },
      stdout := "",
      stderr := "sh: cargo: command not found\n" }

/-- Example argument vector: interpreter path, script path, then the two
user-supplied positional arguments. -/
def argvExample : List String :=
  ["/usr/bin/node", "/app/src/index.ts", "hello.js", "wasm32"]

/-- true exactly for events on the standard output stream. -/
def onOut (e : Channel × String) : Bool :=
  match e.1 with
  | Channel.out => true
  | Channel.err => false

/-- true exactly for events on the standard error stream. -/
def onErr (e : Channel × String) : Bool :=
  match e.1 with
  | Channel.out => false
  | Channel.err => true

/-- Example filesystem: a different readable file with different contents. -/
def fsOther : FileSystem :=
  fun p => if p = "weird.dslhn" then some "vdfjnskahfljdskahfdjklsahfjds" else none

/-- Example argument vector naming the other source file, same target. -/
def argvOther : List String :=
  ["/usr/bin/node", "/app/src/index.ts", "weird.dslhn", "wasm32"]

/-- Helper: a run whose source path names a readable file dispatches the
interpolated command and reports through the callback. -/
theorem program_ok (argv : List String) (fs : FileSystem) (w : World)
    (c : String) (h : fs (argvSourcePath argv) = some c) :
    program argv fs w
      = { exitSuccess := true,
          spawned := [mkCommand (argvTarget argv)],
          events := execCallback (w (mkCommand (argvTarget argv))),
          fsOps := [FsOp.read (argvSourcePath argv)] } := by
  simp [program, runWith, validate, readFileSync, h]

/-- Helper: a run whose source path is not a readable file ends on the
uncaught file error. -/
theorem program_err (argv : List String) (fs : FileSystem) (w : World)
    (h : fs (argvSourcePath argv) = none) :
    program argv fs w
      = { exitSuccess := false, spawned := [], events := [],
          fsOps := [FsOp.read (argvSourcePath argv)] } := by
  simp [program, runWith, validate, readFileSync, h]

/-- Helper: with at least two arguments, the source path is the
second-to-last element of the argument vector. -/
theorem argvSourcePath_eq_get (argv : List String) (h2 : 2 ≤ argv.length) :
    argvSourcePath argv = argv.get ⟨argv.length - 2, by omega⟩ := by
  have hlt : argv.length - 2 < argv.length := by omega
  simp [argvSourcePath, List.getD_eq_getElem?_getD, List.getElem?_eq_getElem hlt,
    List.get_eq_getElem]

/-- Helper: with at least one argument, the target is the last element of
the argument vector. -/
theorem argvTarget_eq_get (argv : List String) (h1 : 1 ≤ argv.length) :
    argvTarget argv = argv.get ⟨argv.length - 1, by omega⟩ := by
  have hlt : argv.length - 1 < argv.length := by omega
  simp [argvTarget, List.getD_eq_getElem?_getD, List.getElem?_eq_getElem hlt,
    List.get_eq_getElem]

/-- Claim C1: the code violates the claim. At target "x86_64; rm -rf /" with a
readable source, the program hands exec exactly the command string with
the target interpolated, and the shell that exec applies to that string
splits it at the semicolon into two commands, the second being rm -rf /:
the metacharacters are interpreted by the shell, and the target does not
reach the toolchain as a single argument-vector element. -/
theorem C1_target_interpolated_into_shell :
    (program ["/usr/bin/node", "/app/src/index.ts", "hello.js", "x86_64; rm -rf /"]
        fsHello worldQuiet).spawned
      = ["cargo run -r --target x86_64; rm -rf /"]
    ∧ mkCommand "x86_64; rm -rf /" = "cargo run -r --target x86_64; rm -rf /"
    ∧ shellCommands "cargo run -r --target x86_64; rm -rf /"
      = ["cargo run -r --target x86_64", "rm -rf /"]
    ∧ shellWords "rm -rf /" = ["rm", "-rf", "/"] := by
  refine ⟨by decide, rfl, by decide, by decide⟩

/-- Claim C2: when the source path does not name a readable file, the run ends
on the uncaught file error strictly before exec: zero commands are
dispatched, the exit is a failure, nothing is printed, in particular no
completion line. -/
theorem C2_unreadable_source_fails_before_spawn
    (argv : List String) (fs : FileSystem) (w : World)
    (h : fs (argvSourcePath argv) = none) :
    (program argv fs w).spawned = []
    ∧ (program argv fs w).exitSuccess = false
    ∧ (program argv fs w).events = []
    ∧ (Channel.out, "Done!") ∉ (program argv fs w).events := by
  rw [program_err argv fs w h]
  refine ⟨rfl, rfl, rfl, by simp⟩

/-- Witness for C2: the missing file missing.txt on an empty filesystem. -/
theorem C2_witness :
    (program ["/usr/bin/node", "/app/src/index.ts", "missing.txt", "wasm32"]
        fsEmpty worldQuiet).spawned = []
    ∧ (program ["/usr/bin/node", "/app/src/index.ts", "missing.txt", "wasm32"]
        fsEmpty worldQuiet).exitSuccess = false
    ∧ (program ["/usr/bin/node", "/app/src/index.ts", "missing.txt", "wasm32"]
        fsEmpty worldQuiet).events = []
    ∧ (Channel.out, "Done!")
        ∉ (program ["/usr/bin/node", "/app/src/index.ts", "missing.txt", "wasm32"]
            fsEmpty worldQuiet).events :=
  C2_unreadable_source_fails_before_spawn _ _ _ rfl

/-- Claim C3: the exit status is a failure exactly when the source file cannot
be read; and with the source fixed, every external-world behavior gives
the same exit status, so a failed launch or failed build never alters it. -/
theorem C3_exit_status_depends_only_on_read (argv : List String)
    (fs : FileSystem) (w : World) :
    ((program argv fs w).exitSuccess = false ↔ fs (argvSourcePath argv) = none)
    ∧ ∀ w1 w2 : World,
        (program argv fs w1).exitSuccess = (program argv fs w2).exitSuccess := by
  cases hfs : fs (argvSourcePath argv) with
  | none =>
      refine ⟨?_, ?_⟩
      · rw [program_err argv fs w hfs]; simp
      · intro w1 w2
        rw [program_err argv fs w1 hfs, program_err argv fs w2 hfs]
  | some c =>
      refine ⟨?_, ?_⟩
      · rw [program_ok argv fs w c hfs]; simp [hfs]
      · intro w1 w2
        rw [program_ok argv fs w1 c hfs, program_ok argv fs w2 c hfs]

/-- Witness for C3: unreadable source gives a failing exit; a readable source
gives a successful exit even when the toolchain is absent. -/
theorem C3_witness :
    (program argvExample fsEmpty worldQuiet).exitSuccess = false
    ∧ (program argvExample fsHello worldNoToolchain).exitSuccess = true := by
  refine ⟨(C3_exit_status_depends_only_on_read argvExample fsEmpty worldQuiet).1.mpr rfl, ?_⟩
  have h := (C3_exit_status_depends_only_on_read argvExample fsHello worldNoToolchain).1
  cases he : (program argvExample fsHello worldNoToolchain).exitSuccess with
  | false => exact absurd (h.mp he) (by decide)
  | true => rfl

/-- Claim C4: with a readable source, after the child terminates the events are
exactly: the captured stderr first when non-empty, then the error value
when non-null, then the captured stdout, then the completion marker; and
the event list always ends with the completion marker "Done!", also when
the launch or the build failed. -/
theorem C4_report_order (argv : List String) (fs : FileSystem) (w : World)
    (c : String) (h : fs (argvSourcePath argv) = some c) :
    (program argv fs w).events
      = (if (w (mkCommand (argvTarget argv))).stderr ≠ "" then
           [(Channel.err, (w (mkCommand (argvTarget argv))).stderr)]
         else [])
        ++ (match (w (mkCommand (argvTarget argv))).error with
            | some e => [(Channel.err, errorRepr e)]
            | none => [])
        ++ [(Channel.out, (w (mkCommand (argvTarget argv))).stdout),
            (Channel.out, "Done!")]
    ∧ ∃ earlier, (program argv fs w).events
        = earlier ++ [(Channel.out, "Done!")] := by
  rw [program_ok argv fs w c h]
  refine ⟨rfl, ?_⟩
  refine ⟨(if (w (mkCommand (argvTarget argv))).stderr ≠ "" then
      [(Channel.err, (w (mkCommand (argvTarget argv))).stderr)]
    else [])
    ++ (match (w (mkCommand (argvTarget argv))).error with
        | some e => [(Channel.err, errorRepr e)]
        | none => [])
    ++ [(Channel.out, (w (mkCommand (argvTarget argv))).stdout)], ?_⟩
  simp [execCallback]

/-- Witness for C4: an absent toolchain still ends in the completion marker,
after the stderr text and the error representation. -/
theorem C4_witness :
    (program argvExample fsHello worldNoToolchain).events
      = [(Channel.err, "sh: cargo: command not found\n"),
         (Channel.err, "spawn failure: cargo not found"),
         (Channel.out, ""), (Channel.out, "Done!")] := by
  have h := C4_report_order argvExample fsHello worldNoToolchain
      "console.log(\"Hello, world!\");" rfl
  rw [h.1]; decide

/-- Claim C5 as stated is false on the code: in a run where the child produced
stderr text, that text is reported on the standard error stream
(console.error, line 10), not the standard output stream. -/
theorem C5_counterexample :
    (Channel.err, "sh: cargo: command not found\n")
      ∈ (program argvExample fsHello worldNoToolchain).events
    ∧ Channel.err ≠ Channel.out := by
  refine ⟨by decide, by decide⟩

/-- Claim C5 amended: with a readable source, the stdout text and the literal
completion line are written to the standard output stream, while the
stderr text and the representation of a launch or execution error are
written to the standard error stream. -/
theorem C5_output_streams (argv : List String) (fs : FileSystem) (w : World)
    (c : String) (h : fs (argvSourcePath argv) = some c) :
    ((program argv fs w).events.filter onOut).map Prod.snd
      = [(w (mkCommand (argvTarget argv))).stdout, "Done!"]
    ∧ ((program argv fs w).events.filter onErr).map Prod.snd
      = (if (w (mkCommand (argvTarget argv))).stderr ≠ "" then
           [(w (mkCommand (argvTarget argv))).stderr]
         else [])
        ++ (match (w (mkCommand (argvTarget argv))).error with
            | some e => [errorRepr e]
            | none => []) := by
  rw [program_ok argv fs w c h]
  generalize w (mkCommand (argvTarget argv)) = o
  obtain ⟨err, so, se⟩ := o
  cases err <;> by_cases hse : se = "" <;>
    simp [execCallback, onOut, onErr, hse]

/-- Witness for C5: with an absent toolchain, standard output carries the
empty stdout and the completion line, standard error the stderr text and
the error representation. -/
theorem C5_witness :
    ((program argvExample fsHello worldNoToolchain).events.filter onOut).map Prod.snd
      = ["", "Done!"]
    ∧ ((program argvExample fsHello worldNoToolchain).events.filter onErr).map Prod.snd
      = ["sh: cargo: command not found\n", "spawn failure: cargo not found"] := by
  have h := C5_output_streams argvExample fsHello worldNoToolchain
      "console.log(\"Hello, world!\");" rfl
  exact ⟨by rw [h.1]; decide, by rw [h.2]; decide⟩

/-- Claim C6: validate performs exactly one filesystem read and no write; on a
readable file it returns the full contents as text; on any other path it
fails with the file error, and that failure is fatal: the whole run ends
with no spawn, no output and a failing exit. -/
theorem C6_validate_contract (fs : FileSystem) (path : String) :
    (validate fs path).fsOps = [FsOp.read path]
    ∧ (∀ p, FsOp.write p ∉ (validate fs path).fsOps)
    ∧ (∀ c, fs path = some c → (validate fs path).result = Except.ok c)
    ∧ (fs path = none →
        (validate fs path).result
          = Except.error ("ENOENT: no such file or directory, open " ++ path))
    ∧ ∀ argv w, argvSourcePath argv = path → fs path = none →
        program argv fs w
          = { exitSuccess := false, spawned := [], events := [],
              fsOps := [FsOp.read path] } := by
  refine ⟨rfl, ?_, ?_, ?_, ?_⟩
  · intro p hp
    simp [validate] at hp
  · intro c hc
    simp [validate, readFileSync, hc]
  · intro hn
    simp [validate, readFileSync, hn]
  · intro argv w ha hn
    rw [← ha] at hn
    rw [program_err argv fs w hn, ha]

/-- Witness for C6: the readable file returns its contents; the missing file
fails and the run on it ends with no spawn and no output. -/
theorem C6_witness :
    (validate fsHello "hello.js").result
      = Except.ok "console.log(\"Hello, world!\");"
    ∧ (validate fsEmpty "missing.txt").result
      = Except.error "ENOENT: no such file or directory, open missing.txt"
    ∧ program ["/usr/bin/node", "/app/src/index.ts", "missing.txt", "wasm32"]
        fsEmpty worldQuiet
      = { exitSuccess := false, spawned := [], events := [],
          fsOps := [FsOp.read "missing.txt"] } := by
  refine ⟨(C6_validate_contract fsHello "hello.js").2.2.1 _ rfl, ?_, ?_⟩
  · have h := (C6_validate_contract fsEmpty "missing.txt").2.2.2.1 rfl
    rw [h]; decide
  · exact (C6_validate_contract fsEmpty "missing.txt").2.2.2.2 _ worldQuiet rfl rfl

/-- Claim C7: with a readable source each invocation dispatches exactly one
external command; in two consecutive runs each run dispatches one command,
each run equals a fresh standalone invocation, and each run result depends
only on the behavior of its own external process, so no state is shared or
leaked between the runs. -/
theorem C7_one_spawn_and_independent_runs (argv : List String)
    (fs : FileSystem) (w1 w2 : World) (c : String)
    (h : fs (argvSourcePath argv) = some c) :
    (runTwice argv fs w1 w2).1.spawned.length = 1
    ∧ (runTwice argv fs w1 w2).2.spawned.length = 1
    ∧ (∀ w1' : World, (runTwice argv fs w1' w2).2 = (runTwice argv fs w1 w2).2)
    ∧ (∀ w2' : World, (runTwice argv fs w1 w2').1 = (runTwice argv fs w1 w2).1)
    ∧ (runTwice argv fs w1 w2).1 = program argv fs w1
    ∧ (runTwice argv fs w1 w2).2 = program argv fs w2 := by
  refine ⟨?_, ?_, fun _ => rfl, fun _ => rfl, rfl, rfl⟩
  · show (program argv fs w1).spawned.length = 1
    rw [program_ok argv fs w1 c h]
    rfl
  · show (program argv fs w2).spawned.length = 1
    rw [program_ok argv fs w2 c h]
    rfl

/-- Witness for C7: two runs on the same readable source and target, one with
a working toolchain and one without, each spawn exactly one command. -/
theorem C7_witness :
    (runTwice argvExample fsHello worldQuiet worldNoToolchain).1.spawned.length = 1
    ∧ (runTwice argvExample fsHello worldQuiet worldNoToolchain).2.spawned.length
      = 1 := by
  have h := C7_one_spawn_and_independent_runs argvExample fsHello worldQuiet
      worldNoToolchain "console.log(\"Hello, world!\");" rfl
  exact ⟨h.1, h.2.1⟩

/-- Claim C8: the source path is the second-to-last and the target the last
element of the argument vector, and the dispatched command is the fixed
string with the target appended verbatim: no allow-list, no normalization,
no validation. -/
theorem C8_positional_args_and_verbatim_target (argv : List String)
    (h2 : 2 ≤ argv.length) (fs : FileSystem) (w : World) (c : String)
    (h : fs (argvSourcePath argv) = some c) :
    argvSourcePath argv = argv.get ⟨argv.length - 2, by omega⟩
    ∧ argvTarget argv = argv.get ⟨argv.length - 1, by omega⟩
    ∧ (program argv fs w).spawned
      = ["cargo run -r --target " ++ argvTarget argv] := by
  refine ⟨argvSourcePath_eq_get argv h2, argvTarget_eq_get argv (by omega), ?_⟩
  rw [program_ok argv fs w c h]
  rfl

/-- Witness for C8: on the example argument vector, the source path and the
target are its last two entries and the target reappears verbatim in the
one dispatched command. -/
theorem C8_witness :
    argvSourcePath argvExample = "hello.js"
    ∧ argvTarget argvExample = "wasm32"
    ∧ (program argvExample fsHello worldQuiet).spawned
      = ["cargo run -r --target wasm32"] := by
  have h := C8_positional_args_and_verbatim_target argvExample (by decide)
      fsHello worldQuiet "console.log(\"Hello, world!\");" rfl
  refine ⟨by rw [h.1]; decide, by rw [h.2.1]; decide, by rw [h.2.2]; decide⟩

/-- Claim C9: two runs with the same target whose source paths name readable
files dispatch identical commands — the fixed command on the shared
target — and produce identical events and exit status, whatever the two
files contain: the contents are read and then discarded. -/
theorem C9_contents_never_influence_command (argv1 argv2 : List String)
    (fs1 fs2 : FileSystem) (w : World) (c1 c2 : String)
    (h1 : fs1 (argvSourcePath argv1) = some c1)
    (h2 : fs2 (argvSourcePath argv2) = some c2)
    (ht : argvTarget argv1 = argvTarget argv2) :
    (program argv1 fs1 w).spawned = (program argv2 fs2 w).spawned
    ∧ (program argv1 fs1 w).spawned = [mkCommand (argvTarget argv1)]
    ∧ (program argv1 fs1 w).events = (program argv2 fs2 w).events
    ∧ (program argv1 fs1 w).exitSuccess = (program argv2 fs2 w).exitSuccess := by
  rw [program_ok argv1 fs1 w c1 h1, program_ok argv2 fs2 w c2 h2, ht]
  exact ⟨rfl, rfl, rfl, rfl⟩

/-- Witness for C9: a JavaScript file and an unrelated file with different
contents, same target: the dispatched commands coincide. -/
theorem C9_witness :
    (program argvExample fsHello worldQuiet).spawned
      = (program argvOther fsOther worldQuiet).spawned
    ∧ (program argvExample fsHello worldQuiet).spawned
      = ["cargo run -r --target wasm32"] := by
  have h := C9_contents_never_influence_command argvExample argvOther fsHello
      fsOther worldQuiet "console.log(\"Hello, world!\");"
      "vdfjnskahfljdskahfdjklsahfjds" rfl rfl rfl
  exact ⟨h.1, by rw [h.2.1]; decide⟩

/-- Claim C10: the program never checks the argument count: for every argument
vector with at least two entries it behaves exactly as the run on the
second-to-last entry as source path and the last entry as target, so with
no user-supplied arguments those positions are the interpreter and script
paths; no usage-error path exists. -/
theorem C10_no_argument_count_check (argv : List String)
    (h2 : 2 ≤ argv.length) (fs : FileSystem) (w : World) :
    program argv fs w
      = runWith (argv.get ⟨argv.length - 2, by omega⟩)
          (argv.get ⟨argv.length - 1, by omega⟩) fs w := by
  unfold program
  rw [argvSourcePath_eq_get argv h2, argvTarget_eq_get argv (by omega)]

/-- Witness for C10: with zero user-supplied arguments the run treats the
interpreter path as the source path and the script path as the target. -/
theorem C10_witness :
    program ["/usr/bin/node", "/app/src/index.ts"] fsEmpty worldQuiet
      = runWith "/usr/bin/node" "/app/src/index.ts" fsEmpty worldQuiet :=
  C10_no_argument_count_check ["/usr/bin/node", "/app/src/index.ts"]
    (by decide) fsEmpty worldQuiet

end UHWC
